import Mathlib

/-!
# Verification of `packages/blocks/src/page-block/default/mouse-manager.ts`

A shallow embedding of the default page-block mouse manager: the
`PageSelection` state holder, the `DefaultMouseManager` drag/click handlers,
and the blank-area classification helpers.  DOM collaborators
(`caretRangeFromPoint`, `getBlockElementByModel`, computed cursor style) are
modelled as an explicit environment; outward calls (`resetNativeSeletion`,
`updateSelectionRect.emit`, `focusRichTextByOffset`) are modelled as an
emitted effect list.  Handlers that call `assertExists` are modelled in
`Except`, where `Except.error` is a thrown assertion.
-/

namespace MouseManager

/-- A DOM node, reduced to the attributes the manager inspects:
whether it is an `HTMLElement`, its `className` and its `tagName`. -/
structure NodeInfo where
  isHTMLElement : Bool
  className : String
  tagName : String
  deriving DecidableEq, Repr

/-- A DOM `Range`, reduced to its `startContainer`/`startOffset` and
`endContainer`/`endOffset`. -/
structure TextRange where
  startContainer : NodeInfo
  startOffset : Nat
  endContainer : NodeInfo
  endOffset : Nat
  deriving DecidableEq, Repr

/-- `Range.prototype.setStart(container, offset)`: replaces the start
endpoint, leaving the end endpoint as it was. -/
def TextRange.setStart (r : TextRange) (container : NodeInfo) (offset : Nat) :
    TextRange :=
  { r with startContainer := container, startOffset := offset }

/-- A viewport point `{x, y}` (`clientX`/`clientY`). -/
structure Point where
  x : Int
  y : Int
  deriving DecidableEq, Repr

/-- `DOMRect(left, top, width, height)` as a plain value. -/
structure DOMRect where
  left : Int
  top : Int
  width : Int
  height : Int
  deriving DecidableEq, Repr

/-- The raw mouse event data the manager reads: `clientX`, `clientY`, and
the tag name of the event target, whether it is an `HTMLInputElement`, and its
computed `cursor` style. -/
structure RawEvent where
  clientX : Int
  clientY : Int
  targetTag : String
  targetIsInput : Bool
  targetCursor : String
  deriving DecidableEq, Repr

/-- Modifier-key flags carried by a `SelectionEvent`. -/
structure KeyFlags where
  shift : Bool
  deriving DecidableEq, Repr

/-- A normalized `SelectionEvent` from `initMouseEventHandlers`. -/
structure SelectionEvent where
  raw : RawEvent
  keys : KeyFlags
  deriving DecidableEq, Repr

/-- A top-level block model: the manager only reads its `flavour`. -/
structure BlockModel where
  flavour : String
  deriving DecidableEq, Repr

/-- The root block: the manager only calls `lastChild()` on it, which may
return `null`. -/
structure RootBlock where
  lastChild : Option BlockModel
  deriving DecidableEq, Repr

/-- The store: the manager only reads `store.root`, which may be `null`. -/
structure Store where
  root : Option RootBlock
  deriving DecidableEq, Repr

/-- External DOM collaborators, injected as pure functions:
`caretRangeFromPoint` (hit test, may return `null`) and
`getBlockElementByModel` (rendered element lookup, may return `null`). -/
structure Env where
  caretRangeFromPoint : Int → Int → Option TextRange
  getBlockElementByModel : BlockModel → Option NodeInfo

/-- Outward side effects published by the manager: a rectangle (or `null`)
on the `updateSelectionRect` slot, a range (or `null`) passed to
`resetNativeSeletion`, or a caret placement via `focusRichTextByOffset`
on an element (or `null`) at a horizontal coordinate. -/
inductive Effect where
  | updateSelectionRect (r : Option DOMRect)
  | resetNativeSeletion (r : Option TextRange)
  | focusRichTextByOffset (el : Option NodeInfo) (x : Int)
  deriving DecidableEq, Repr

/-- Modelled from the spec: `assertExists` comes from `__internal__`, which
is not under `src/`.  Per the spec, missing anchors and protocol violations
are "treated as non-recoverable assertion failures surfaced immediately
(fail-fast)": it throws when the value is null and returns it otherwise. -/
def assertExists {α : Type} : Option α → Except String α
  | some a => Except.ok a
  | none => Except.error "assertion failure: value does not exist"

/-- Does `sub` occur as a contiguous run of `l`? -/
def listContains (sub : List Char) : List Char → Bool
  | [] => sub.isEmpty
  | c :: rest => sub.isPrefixOf (c :: rest) || listContains sub rest

/-- `String.prototype.includes`: substring test. -/
def stringIncludes (s sub : String) : Bool :=
  listContains sub.toList s.toList

/-- `isBlankAreaBetweenBlocks`: the hit node is an `HTMLElement` whose
`className` includes `affine-paragraph-block-container`. -/
def isBlankAreaBetweenBlocks (startContainer : NodeInfo) : Bool :=
  startContainer.isHTMLElement &&
    stringIncludes startContainer.className "affine-paragraph-block-container"

/-- `isBlankAreaAfterLastBlock`: the tag of the hit element is `GROUP-BLOCK`. -/
def isBlankAreaAfterLastBlock (startContainer : NodeInfo) : Bool :=
  startContainer.tagName == "GROUP-BLOCK"

/-- `isBlankAreaBeforeFirstBlock`: the hit node is an `HTMLElement` whose
`className` includes `affine-group-block-container`. -/
def isBlankAreaBeforeFirstBlock (startContainer : NodeInfo) : Bool :=
  startContainer.isHTMLElement &&
    stringIncludes startContainer.className "affine-group-block-container"

/-- `isBlankArea`: the computed `cursor` style is
`default`. -/
def isBlankArea (e : SelectionEvent) : Bool :=
  e.raw.targetCursor == "default"

/-- `PageSelectionType`: the enumeration of `native`, `block` and `none`. -/
inductive PageSelectionType where
  | native
  | block
  | none
  deriving DecidableEq, Repr

/-- `createSelectionRect(current, start)`: the axis-aligned rectangle
spanned by the two points. -/
def createSelectionRect (current : Point) (start : Point) : DOMRect :=
  { left := min current.x start.x
    top := min current.y start.y
    width := |current.x - start.x|
    height := |current.y - start.y| }

/-- The `PageSelection` state holder: the mode `type`, the private
`_startRange` and `_startPoint` anchors. -/
structure PageSelection where
  type : PageSelectionType
  startRange : Option TextRange
  startPoint : Option Point
  deriving DecidableEq, Repr

/-- `new PageSelection(type)`: both anchors start out `null`. -/
def PageSelection.mk' (type : PageSelectionType) : PageSelection :=
  { type := type, startRange := Option.none, startPoint := Option.none }

/-- `PageSelection.resetStartRange(e)`: captures the hit-test range at the
event coordinates, and the event point, as the anchors. -/
def PageSelection.resetStartRange (s : PageSelection) (env : Env)
    (e : SelectionEvent) : PageSelection :=
  { s with
    startRange := env.caretRangeFromPoint e.raw.clientX e.raw.clientY
    startPoint := some { x := e.raw.clientX, y := e.raw.clientY } }

/-- `PageSelection.clear()`: resets both anchors to `null` (the mode is
untouched). -/
def PageSelection.clear (s : PageSelection) : PageSelection :=
  { s with startRange := Option.none, startPoint := Option.none }

/-- `_onBlockDragStart`: set mode to `block`, capture the anchors again,
and clear the native selection (`resetNativeSeletion(null)`). -/
def onBlockDragStart (env : Env) (s : PageSelection) (e : SelectionEvent) :
    PageSelection × List Effect :=
  let s := { s with type := PageSelectionType.block }
  let s := s.resetStartRange env e
  (s, [Effect.resetNativeSeletion Option.none])

/-- `_onBlockDragMove`: assert the anchor point exists, derive the
selection rectangle from the current point and the anchor, and emit it on
`updateSelectionRect`. -/
def onBlockDragMove (s : PageSelection) (e : SelectionEvent) :
    Except String (PageSelection × List Effect) :=
  match assertExists s.startPoint with
  | Except.error msg => Except.error msg
  | Except.ok start =>
    let current : Point := { x := e.raw.clientX, y := e.raw.clientY }
    let selectionRect := createSelectionRect current start
    Except.ok (s, [Effect.updateSelectionRect (some selectionRect)])

/-- `_onBlockDragEnd`: clear the anchors and emit `null` on
`updateSelectionRect`. -/
def onBlockDragEnd (s : PageSelection) (_e : SelectionEvent) :
    PageSelection × List Effect :=
  (s.clear, [Effect.updateSelectionRect Option.none])

/-- `_onNativeDragStart`: set mode to `native`; no other effect. -/
def onNativeDragStart (s : PageSelection) (_e : SelectionEvent) :
    PageSelection × List Effect :=
  ({ s with type := PageSelectionType.native }, [])

/-- `_onNativeDragMove`: assert the anchor range exists, hit-test the
current point, replant the start of the resulting range at the anchor
container/offset (`setEnd` is commented out in the source), and apply it
via `resetNativeSeletion` (`null` when the hit test fails). -/
def onNativeDragMove (env : Env) (s : PageSelection) (e : SelectionEvent) :
    Except String (PageSelection × List Effect) :=
  match assertExists s.startRange with
  | Except.error msg => Except.error msg
  | Except.ok startRange =>
    let currentRange := env.caretRangeFromPoint e.raw.clientX e.raw.clientY
    let currentRange := currentRange.map fun r =>
      r.setStart startRange.startContainer startRange.startOffset
    Except.ok (s, [Effect.resetNativeSeletion currentRange])

/-- `_onNativeDragEnd`: `noop()`. -/
def onNativeDragEnd (s : PageSelection) (_e : SelectionEvent) :
    PageSelection × List Effect :=
  (s, [])

/-- `_onContainerDragStart`: capture the anchors, then dispatch on the
blank-area classification of the event target. -/
def onContainerDragStart (env : Env) (s : PageSelection)
    (e : SelectionEvent) : PageSelection × List Effect :=
  let s := s.resetStartRange env e
  if isBlankArea e then onBlockDragStart env s e
  else onNativeDragStart s e

/-- `_onContainerDragMove`: dispatch on the current mode; when the mode is
`none` neither branch runs. -/
def onContainerDragMove (env : Env) (s : PageSelection)
    (e : SelectionEvent) : Except String (PageSelection × List Effect) :=
  if s.type = PageSelectionType.native then onNativeDragMove env s e
  else if s.type = PageSelectionType.block then onBlockDragMove s e
  else Except.ok (s, [])

/-- `_onContainerDragEnd`: dispatch on the current mode, then always set
the mode to `none` and clear both anchors. -/
def onContainerDragEnd (s : PageSelection) (e : SelectionEvent) :
    PageSelection × List Effect :=
  let r :=
    if s.type = PageSelectionType.native then onNativeDragEnd s e
    else if s.type = PageSelectionType.block then onBlockDragEnd s e
    else (s, [])
  ({ r.1 with
      type := PageSelectionType.none
      startRange := Option.none
      startPoint := Option.none },
    r.2)

/-- The effects emitted by `_onContainerClick` after its initial
`this._selection.type = none` mutation: bail out on the debug menu, on
input elements and on shift-clicks; otherwise hit-test the click, apply
the resulting range natively when there is one, and classify the hit node
to possibly place a caret via `focusRichTextByOffset`. -/
def clickEffects (env : Env) (store : Store) (e : SelectionEvent) :
    List Effect :=
  if e.raw.targetTag == "DEBUG-MENU" then []
  else if e.raw.targetIsInput then []
  else if e.keys.shift then []
  else
    match env.caretRangeFromPoint e.raw.clientX e.raw.clientY with
    | Option.none => []
    | some range =>
      let effs := [Effect.resetNativeSeletion (some range)]
      let startContainer := range.startContainer
      if !startContainer.isHTMLElement then effs
      else if isBlankAreaBetweenBlocks startContainer ||
          isBlankAreaBeforeFirstBlock startContainer then
        effs ++ [Effect.focusRichTextByOffset (some startContainer) e.raw.clientX]
      else if isBlankAreaAfterLastBlock startContainer then
        match store.root with
        | Option.none => effs
        | some root =>
          match root.lastChild with
          | Option.none => effs
          | some lastChild =>
            if lastChild.flavour == "paragraph" || lastChild.flavour == "list" then
              effs ++
                [Effect.focusRichTextByOffset
                  (env.getBlockElementByModel lastChild) e.raw.clientX]
            else effs
      else effs

/-- `_onContainerClick`: the state mutation is the single assignment
`this._selection.type = none` on entry (the anchors are untouched); the
rest of the handler only reads collaborators and emits effects. -/
def onContainerClick (env : Env) (store : Store) (s : PageSelection)
    (e : SelectionEvent) : PageSelection × List Effect :=
  ({ s with type := PageSelectionType.none }, clickEffects env store e)

/-- The normalized pointer actions delivered to the container handlers of the manager. -/
inductive PointerAction where
  | dragStart (e : SelectionEvent)
  | dragMove (e : SelectionEvent)
  | dragEnd (e : SelectionEvent)
  | click (e : SelectionEvent)
  deriving DecidableEq, Repr

/-- Whether an action is a drag start. -/
def PointerAction.isDragStart : PointerAction → Bool
  | PointerAction.dragStart _ => true
  | _ => false

/-- One step of the manager: dispatch a pointer action to the matching
container handler. -/
def step (env : Env) (store : Store) (s : PageSelection) :
    PointerAction → Except String (PageSelection × List Effect)
  | PointerAction.dragStart e => Except.ok (onContainerDragStart env s e)
  | PointerAction.dragMove e => onContainerDragMove env s e
  | PointerAction.dragEnd e => Except.ok (onContainerDragEnd s e)
  | PointerAction.click e => Except.ok (onContainerClick env store s e)

/-- Run a sequence of pointer actions, threading the selection state and
concatenating the emitted effects in delivery order. -/
def run (env : Env) (store : Store) (s : PageSelection) :
    List PointerAction → Except String (PageSelection × List Effect)
  | [] => Except.ok (s, [])
  | a :: rest =>
    match step env store s a with
    | Except.error msg => Except.error msg
    | Except.ok (s1, effs1) =>
      match run env store s1 rest with
      | Except.error msg => Except.error msg
      | Except.ok (s2, effs2) => Except.ok (s2, effs1 ++ effs2)

/-- A whole drag gesture: one start, a list of moves, one end. -/
def dragActions (startE : SelectionEvent) (moves : List SelectionEvent)
    (endE : SelectionEvent) : List PointerAction :=
  PointerAction.dragStart startE ::
    (moves.map PointerAction.dragMove ++ [PointerAction.dragEnd endE])

/-- The initial selection state of the manager: `new PageSelection` with
mode `none`. -/
def initialSelection : PageSelection :=
  PageSelection.mk' PageSelectionType.none

/-! ## Sample values used by concrete witnesses and counterexamples -/

/-- A sample text node (not an `HTMLElement`). -/
def nodeTextW : NodeInfo :=
  { isHTMLElement := false, className := "", tagName := "#text" }

/-- A sample `GROUP-BLOCK` element. -/
def nodeGroupW : NodeInfo :=
  { isHTMLElement := true, className := "", tagName := "GROUP-BLOCK" }

/-- A sample range anchored in the text node. -/
def rangeW1 : TextRange :=
  { startContainer := nodeTextW, startOffset := 3
    endContainer := nodeTextW, endOffset := 5 }

/-- A second, distinct sample range. -/
def rangeW2 : TextRange :=
  { startContainer := nodeTextW, startOffset := 7
    endContainer := nodeTextW, endOffset := 9 }

/-- A sample environment: the hit test succeeds at nonnegative x (yielding
`rangeW2`) and fails at negative x. -/
def envW : Env :=
  { caretRangeFromPoint := fun x _ =>
      if 0 ≤ x then some rangeW2 else Option.none
    getBlockElementByModel := fun _ => some nodeGroupW }

/-- A sample store with a paragraph as last top-level child. -/
def storeW : Store :=
  { root := some { lastChild := some { flavour := "paragraph" } } }

/-- A sample move event at (50, 80) over text content. -/
def evMoveW : SelectionEvent :=
  { raw := { clientX := 50, clientY := 80, targetTag := "DIV"
             targetIsInput := false, targetCursor := "text" }
    keys := { shift := false } }

/-- A sample event at (-5, 4) whose hit test fails under `envW`. -/
def evNegW : SelectionEvent :=
  { raw := { clientX := -5, clientY := 4, targetTag := "DIV"
             targetIsInput := false, targetCursor := "text" }
    keys := { shift := false } }

/-- A sample Block-mode selection state with anchor point (10, 10). -/
def selBlockW : PageSelection :=
  { type := PageSelectionType.block, startRange := Option.none
    startPoint := some { x := 10, y := 10 } }

/-- A sample Native-mode selection state with anchor range `rangeW1`. -/
def selNativeW : PageSelection :=
  { type := PageSelectionType.native, startRange := some rangeW1
    startPoint := some { x := 1, y := 2 } }

/-! ## Claims -/

/-- Claim C2: in Block mode, with anchor point `P0`, a drag move at
current point `P1` emits on the rectangle channel exactly the rectangle
with `left = min(P0.x, P1.x)`, `top = min(P0.y, P1.y)`,
`width = |P1.x - P0.x|`, `height = |P1.y - P0.y|` (covering `P0 = P1`
with the zero-size rectangle), and the Block-mode drag end emits exactly
`null` on the same channel. -/
theorem C2_block_rectangle (env : Env) (s : PageSelection)
    (e : SelectionEvent) (p0 : Point)
    (htype : s.type = PageSelectionType.block)
    (hp : s.startPoint = some p0) :
    onContainerDragMove env s e =
      Except.ok (s, [Effect.updateSelectionRect (some
        { left := min p0.x e.raw.clientX
          top := min p0.y e.raw.clientY
          width := |e.raw.clientX - p0.x|
          height := |e.raw.clientY - p0.y| })]) ∧
    (onContainerDragEnd s e).2 = [Effect.updateSelectionRect Option.none] := by
  constructor
  · simp [onContainerDragMove, htype, onBlockDragMove, hp, assertExists,
      createSelectionRect, min_comm]
  · simp [onContainerDragEnd, htype, onBlockDragEnd]

/-- Witness for C2 at `P0 = (10, 10)`, `P1 = (50, 80)`. -/
theorem C2_block_rectangle_witness :
    onContainerDragMove envW selBlockW evMoveW =
      Except.ok (selBlockW, [Effect.updateSelectionRect (some
        { left := min (10 : Int) 50
          top := min (10 : Int) 80
          width := |(50 : Int) - 10|
          height := |(80 : Int) - 10| })]) ∧
    (onContainerDragEnd selBlockW evMoveW).2 =
      [Effect.updateSelectionRect Option.none] :=
  C2_block_rectangle envW selBlockW evMoveW { x := 10, y := 10 } rfl rfl

/-- Claim C6: in Native mode with anchor range `r0`, when the hit test at
the current point yields `r1`, the move applies exactly the range whose
start is the anchor container/offset of `r0` and whose end is the end of
`r1` as resolved (never explicitly set). -/
theorem C6_native_move_range (env : Env) (s : PageSelection)
    (e : SelectionEvent) (r0 r1 : TextRange)
    (htype : s.type = PageSelectionType.native)
    (hr : s.startRange = some r0)
    (hhit : env.caretRangeFromPoint e.raw.clientX e.raw.clientY = some r1) :
    onContainerDragMove env s e =
      Except.ok (s, [Effect.resetNativeSeletion (some
        { startContainer := r0.startContainer
          startOffset := r0.startOffset
          endContainer := r1.endContainer
          endOffset := r1.endOffset })]) := by
  simp [onContainerDragMove, htype, onNativeDragMove, hr, assertExists,
    hhit, TextRange.setStart]

/-- Witness for C6 with anchor range `rangeW1` and hit-test result
`rangeW2`. -/
theorem C6_native_move_range_witness :
    onContainerDragMove envW selNativeW evMoveW =
      Except.ok (selNativeW, [Effect.resetNativeSeletion (some
        { startContainer := rangeW1.startContainer
          startOffset := rangeW1.startOffset
          endContainer := rangeW2.endContainer
          endOffset := rangeW2.endOffset })]) :=
  C6_native_move_range envW selNativeW evMoveW rangeW1 rangeW2 rfl rfl rfl

/-- Claim C9: in Native mode, when the hit test at the current point
resolves to no position, the move passes `null` to the selection-apply
function, clearing the native selection rather than keeping the
previously applied range. -/
theorem C9_native_move_null_hit (env : Env) (s : PageSelection)
    (e : SelectionEvent) (r0 : TextRange)
    (htype : s.type = PageSelectionType.native)
    (hr : s.startRange = some r0)
    (hhit : env.caretRangeFromPoint e.raw.clientX e.raw.clientY =
      Option.none) :
    onContainerDragMove env s e =
      Except.ok (s, [Effect.resetNativeSeletion Option.none]) := by
  simp [onContainerDragMove, htype, onNativeDragMove, hr, assertExists, hhit]

/-- Witness for C9: the hit test fails at (-5, 4) under `envW`. -/
theorem C9_native_move_null_hit_witness :
    onContainerDragMove envW selNativeW evNegW =
      Except.ok (selNativeW, [Effect.resetNativeSeletion Option.none]) :=
  C9_native_move_null_hit envW selNativeW evNegW rangeW1 rfl rfl rfl

/-- Claim C10: when a drag starts on content (Native mode) but the hit
test at the start position returns `null`, the start itself succeeds,
leaving mode Native with a `null` anchor range, and the first subsequent
drag move fails the `assertExists` assertion on the missing anchor
range. -/
theorem C10_native_null_anchor_asserts (env : Env) (s0 : PageSelection)
    (eStart eMove : SelectionEvent)
    (hblank : isBlankArea eStart = false)
    (hhit : env.caretRangeFromPoint eStart.raw.clientX eStart.raw.clientY =
      Option.none) :
    (onContainerDragStart env s0 eStart).1.type = PageSelectionType.native ∧
    (onContainerDragStart env s0 eStart).1.startRange = Option.none ∧
    onContainerDragMove env (onContainerDragStart env s0 eStart).1 eMove =
      Except.error "assertion failure: value does not exist" := by
  have hstart : onContainerDragStart env s0 eStart =
      ({ s0 with
          type := PageSelectionType.native
          startRange := Option.none
          startPoint :=
            some { x := eStart.raw.clientX, y := eStart.raw.clientY } },
        []) := by
    simp [onContainerDragStart, hblank, onNativeDragStart,
      PageSelection.resetStartRange, hhit]
  rw [hstart]
  refine ⟨rfl, rfl, ?_⟩
  simp [onContainerDragMove, onNativeDragMove, assertExists]

/-- Witness for C10: content start at (-5, 4) whose hit test fails, then a
move. -/
theorem C10_native_null_anchor_asserts_witness :
    isBlankArea evNegW = false ∧
    ((onContainerDragStart envW initialSelection evNegW).1.type =
        PageSelectionType.native ∧
      (onContainerDragStart envW initialSelection evNegW).1.startRange =
        Option.none ∧
      onContainerDragMove envW
          (onContainerDragStart envW initialSelection evNegW).1 evMoveW =
        Except.error "assertion failure: value does not exist") :=
  ⟨by decide,
    C10_native_null_anchor_asserts envW initialSelection evNegW evMoveW
      (by decide) rfl⟩

/-- A selection that already holds captured anchors, as after a first
drag-start capture. -/
def selCapturedW : PageSelection :=
  { type := PageSelectionType.native, startRange := some rangeW1
    startPoint := some { x := 1, y := 2 } }

/-- Counterexample to C4 as stated: with anchors already captured and no
intervening `clear()`, a second `resetStartRange` neither logs nor asserts
an error — it is a total operation that silently replaces both anchors
(here: the anchor point (1, 2) becomes (50, 80) and the anchor range
`rangeW1` becomes `rangeW2`). -/
theorem C4_double_capture_counterexample :
    selCapturedW.startPoint = some { x := 1, y := 2 } ∧
    selCapturedW.startRange = some rangeW1 ∧
    (selCapturedW.resetStartRange envW evMoveW).startPoint =
      some { x := 50, y := 80 } ∧
    (selCapturedW.resetStartRange envW evMoveW).startRange = some rangeW2 := by
  refine ⟨rfl, rfl, rfl, ?_⟩
  simp [PageSelection.resetStartRange, envW, evMoveW]

/-- Claim C4 (amended): `resetStartRange` called again without an
intervening `clear()` does not fail; it silently overwrites both anchors
with the values derived from the new event, whatever was stored before
(indeed a Block-mode drag start performs this double capture itself:
`_onContainerDragStart` captures and `_onBlockDragStart` captures
again). -/
theorem C4_reset_overwrites (s : PageSelection) (env : Env)
    (e : SelectionEvent) :
    (s.resetStartRange env e).startPoint =
      some { x := e.raw.clientX, y := e.raw.clientY } ∧
    (s.resetStartRange env e).startRange =
      env.caretRangeFromPoint e.raw.clientX e.raw.clientY ∧
    (s.resetStartRange env e).type = s.type :=
  ⟨rfl, rfl, rfl⟩

/-- A selection in mode `none` with no anchors: the state before any drag
has started. -/
def selNoneW : PageSelection :=
  { type := PageSelectionType.none, startRange := Option.none
    startPoint := Option.none }

/-- Counterexample to C5 as stated: a drag move delivered in mode `none`
returns normally with no effects (`Except.ok`, not an assertion error),
and a drag end likewise returns normally — neither is an assertion
failure. -/
theorem C5_orphan_events_counterexample :
    onContainerDragMove envW selNoneW evMoveW = Except.ok (selNoneW, []) ∧
    onContainerDragMove envW selNoneW evMoveW ≠
      Except.error "assertion failure: value does not exist" ∧
    onContainerDragEnd selNoneW evMoveW = (selNoneW, []) := by
  refine ⟨?_, ?_, ?_⟩
  · simp [onContainerDragMove, selNoneW]
  · simp [onContainerDragMove, selNoneW]
  · simp [onContainerDragEnd, onNativeDragEnd, onBlockDragEnd, selNoneW]

/-- Claim C5 (amended): a drag move delivered while the mode is `none` is
silently ignored — the state is unchanged and nothing is emitted; a drag
end in mode `none` runs no mode handler and emits nothing, resetting the
mode to `none` and the anchors to `null`. No assertion fires in either
case. -/
theorem C5_orphan_events_ignored (env : Env) (s : PageSelection)
    (e : SelectionEvent) (h : s.type = PageSelectionType.none) :
    onContainerDragMove env s e = Except.ok (s, []) ∧
    onContainerDragEnd s e =
      ({ s with
          type := PageSelectionType.none
          startRange := Option.none
          startPoint := Option.none },
        []) := by
  constructor
  · simp [onContainerDragMove, h, pure, Except.pure]
  · simp [onContainerDragEnd, h]

/-- Witness for the amended C5 at the concrete mode-`none` state. -/
theorem C5_orphan_events_ignored_witness :
    onContainerDragMove envW selNoneW evNegW = Except.ok (selNoneW, []) ∧
    onContainerDragEnd selNoneW evNegW =
      ({ selNoneW with
          type := PageSelectionType.none
          startRange := Option.none
          startPoint := Option.none },
        []) :=
  C5_orphan_events_ignored envW selNoneW evNegW rfl

/-- A shift-click event at (50, 80). -/
def evShiftW : SelectionEvent :=
  { raw := { clientX := 50, clientY := 80, targetTag := "DIV"
             targetIsInput := false, targetCursor := "text" }
    keys := { shift := true } }

/-- Counterexample to C7 as stated: a shift-click delivered while the mode
is Native does change the selection mode — `_onContainerClick` assigns
mode `none` before it tests the shift modifier, so the mode is not left
unchanged. -/
theorem C7_shift_click_counterexample :
    selNativeW.type = PageSelectionType.native ∧
    evShiftW.keys.shift = true ∧
    (onContainerClick envW storeW selNativeW evShiftW).1.type ≠
      selNativeW.type := by
  refine ⟨rfl, rfl, ?_⟩
  simp [onContainerClick, selNativeW]

/-- Claim C7 (amended): for every click carrying the shift modifier,
`onClick` first resets the mode to `none` (leaving the anchors untouched)
and then exits early: no caret or native selection is applied and no
region classification is performed — no effect is emitted at all. -/
theorem C7_shift_click_early_exit (env : Env) (store : Store)
    (s : PageSelection) (e : SelectionEvent) (h : e.keys.shift = true) :
    onContainerClick env store s e =
      ({ s with type := PageSelectionType.none }, []) := by
  unfold onContainerClick clickEffects
  by_cases h1 : e.raw.targetTag == "DEBUG-MENU" <;>
    by_cases h2 : e.raw.targetIsInput <;>
      simp [h1, h2, h]

/-- Witness for the amended C7 at the concrete shift-click. -/
theorem C7_shift_click_early_exit_witness :
    onContainerClick envW storeW selNativeW evShiftW =
      ({ selNativeW with type := PageSelectionType.none }, []) :=
  C7_shift_click_early_exit envW storeW selNativeW evShiftW rfl

/-- A rendered paragraph-block element. -/
def nodeParaElW : NodeInfo :=
  { isHTMLElement := true, className := "rich-text", tagName := "PARAGRAPH-BLOCK" }

/-- A collapsed range anchored in the `GROUP-BLOCK` element, as resolved
for a click in the blank region below the last block. -/
def rangeGroupW : TextRange :=
  { startContainer := nodeGroupW, startOffset := 0
    endContainer := nodeGroupW, endOffset := 0 }

/-- An environment whose hit test yields `rangeGroupW` and whose element
lookup yields the rendered paragraph element. -/
def envGroupW : Env :=
  { caretRangeFromPoint := fun _ _ => some rangeGroupW
    getBlockElementByModel := fun _ => some nodeParaElW }

/-- Claim C8: for a click that passes the target guards and whose hit node
classifies as the blank region after the last block (a `GROUP-BLOCK`
element): when the last top-level node exists and has flavour `paragraph`
or `list`, a caret is placed via `focusRichTextByOffset` on the rendered
element of that node at the click x-coordinate; for any other flavour no
caret-placement effect is emitted. -/
theorem C8_click_after_last_block (env : Env) (store : Store)
    (s : PageSelection) (e : SelectionEvent) (range : TextRange)
    (root : RootBlock) (lastChild : BlockModel)
    (hmenu : (e.raw.targetTag == "DEBUG-MENU") = false)
    (hinput : e.raw.targetIsInput = false)
    (hshift : e.keys.shift = false)
    (hhit : env.caretRangeFromPoint e.raw.clientX e.raw.clientY = some range)
    (hhtml : range.startContainer.isHTMLElement = true)
    (hnb : isBlankAreaBetweenBlocks range.startContainer = false)
    (hnf : isBlankAreaBeforeFirstBlock range.startContainer = false)
    (hafter : isBlankAreaAfterLastBlock range.startContainer = true)
    (hroot : store.root = some root)
    (hlast : root.lastChild = some lastChild) :
    onContainerClick env store s e =
      ({ s with type := PageSelectionType.none },
        if lastChild.flavour == "paragraph" || lastChild.flavour == "list" then
          [Effect.resetNativeSeletion (some range),
            Effect.focusRichTextByOffset
              (env.getBlockElementByModel lastChild) e.raw.clientX]
        else [Effect.resetNativeSeletion (some range)]) := by
  by_cases hfl :
      lastChild.flavour == "paragraph" || lastChild.flavour == "list" <;>
    simp [onContainerClick, clickEffects, hmenu, hinput, hshift, hhit, hhtml,
      hnb, hnf, hafter, hroot, hlast, hfl]

/-- Witness for C8: click at (50, 80) over the `GROUP-BLOCK` dead space
with a paragraph as last top-level node. -/
theorem C8_click_after_last_block_witness :
    onContainerClick envGroupW storeW selNoneW evMoveW =
      ({ selNoneW with type := PageSelectionType.none },
        if ("paragraph" : String) == "paragraph" ||
            ("paragraph" : String) == "list" then
          [Effect.resetNativeSeletion (some rangeGroupW),
            Effect.focusRichTextByOffset
              (envGroupW.getBlockElementByModel { flavour := "paragraph" })
              evMoveW.raw.clientX]
        else [Effect.resetNativeSeletion (some rangeGroupW)]) :=
  C8_click_after_last_block envGroupW storeW selNoneW evMoveW rangeGroupW
    { lastChild := some { flavour := "paragraph" } } { flavour := "paragraph" }
    (by decide) rfl rfl rfl rfl (by decide) (by decide) (by decide) rfl rfl

/-! ## Trace lemmas for the lifecycle and separation claims -/

/-- The shape of effects a drag may emit after its start, by mode:
Native-mode steps only pass ranges to the selection-apply function,
Block-mode steps only emit on the rectangle channel, and no effect is
emitted in mode `none`. -/
def dragTailEffect (t : PageSelectionType) (eff : Effect) : Prop :=
  match t with
  | PageSelectionType.native => ∃ o, eff = Effect.resetNativeSeletion o
  | PageSelectionType.block => ∃ o, eff = Effect.updateSelectionRect o
  | PageSelectionType.none => False

/-- A successful container drag move leaves the state unchanged, and each
emitted effect matches the mode. -/
theorem dragMove_ok (env : Env) (s : PageSelection) (e : SelectionEvent)
    (s' : PageSelection) (effs : List Effect)
    (h : onContainerDragMove env s e = Except.ok (s', effs)) :
    s' = s ∧ ∀ eff ∈ effs, dragTailEffect s.type eff := by
  cases ht : s.type with
  | native =>
    simp only [onContainerDragMove, ht, reduceIte] at h
    cases hr : s.startRange with
    | none => simp [onNativeDragMove, hr, assertExists] at h
    | some r0 =>
      simp [onNativeDragMove, hr, assertExists] at h
      obtain ⟨h1, h2⟩ := h
      subst h1
      refine ⟨rfl, ?_⟩
      intro eff hm
      rw [← h2, List.mem_singleton] at hm
      subst hm
      exact ⟨_, rfl⟩
  | block =>
    simp only [onContainerDragMove, ht, reduceIte] at h
    cases hp : s.startPoint with
    | none => simp [onBlockDragMove, hp, assertExists] at h
    | some p0 =>
      simp [onBlockDragMove, hp, assertExists] at h
      obtain ⟨h1, h2⟩ := h
      subst h1
      refine ⟨rfl, ?_⟩
      intro eff hm
      rw [← h2, List.mem_singleton] at hm
      subst hm
      exact ⟨_, rfl⟩
  | none =>
    simp [onContainerDragMove, ht] at h
    obtain ⟨h1, h2⟩ := h
    subst h1
    subst h2
    refine ⟨rfl, ?_⟩
    intro eff hm
    simp at hm

/-- The container drag end always produces the fully reset state, and it
emits an effect only in Block mode — the `null` rectangle. -/
theorem dragEnd_characterization (s : PageSelection) (e : SelectionEvent) :
    (onContainerDragEnd s e).1.type = PageSelectionType.none ∧
    (onContainerDragEnd s e).1.startRange = Option.none ∧
    (onContainerDragEnd s e).1.startPoint = Option.none ∧
    ∀ eff ∈ (onContainerDragEnd s e).2,
      s.type = PageSelectionType.block ∧
        eff = Effect.updateSelectionRect Option.none := by
  cases ht : s.type <;>
    simp [onContainerDragEnd, ht, onNativeDragEnd, onBlockDragEnd]

/-- Destructor for a successful run of a nonempty action list. -/
theorem run_cons (env : Env) (store : Store) (s : PageSelection)
    (a : PointerAction) (rest : List PointerAction) (s' : PageSelection)
    (effs : List Effect)
    (h : run env store s (a :: rest) = Except.ok (s', effs)) :
    ∃ s1 effs1 effs2,
      step env store s a = Except.ok (s1, effs1) ∧
      run env store s1 rest = Except.ok (s', effs2) ∧
      effs = effs1 ++ effs2 := by
  cases hstep : step env store s a with
  | error msg => simp [run, hstep] at h
  | ok r1 =>
    cases hrun : run env store r1.1 rest with
    | error msg => simp [run, hstep, hrun] at h
    | ok r2 =>
      simp [run, hstep, hrun] at h
      obtain ⟨h1, h2⟩ := h
      exact ⟨r1.1, r1.2, r2.2, rfl, by rw [← h1, hrun], h2.symm⟩

/-- A successful empty run returns the state unchanged with no
effects. -/
theorem run_nil (env : Env) (store : Store) (s : PageSelection)
    (s' : PageSelection) (effs : List Effect)
    (h : run env store s [] = Except.ok (s', effs)) :
    s' = s ∧ effs = [] := by
  simp [run] at h
  exact ⟨h.1.symm, h.2⟩

/-- Characterization of the tail of a drag (the moves and the final end):
every emitted effect matches the mode held when the tail begins, and the
final state is fully reset. -/
theorem run_dragTail (env : Env) (store : Store) (endE : SelectionEvent) :
    ∀ (moves : List SelectionEvent) (s s' : PageSelection)
      (effs : List Effect),
      run env store s (moves.map PointerAction.dragMove ++
        [PointerAction.dragEnd endE]) = Except.ok (s', effs) →
      (∀ eff ∈ effs,
        dragTailEffect s.type eff ∨
          (s.type = PageSelectionType.block ∧
            eff = Effect.updateSelectionRect Option.none)) ∧
      s'.type = PageSelectionType.none ∧
      s'.startRange = Option.none ∧ s'.startPoint = Option.none := by
  intro moves
  induction moves with
  | nil =>
    intro s s' effs h
    simp only [List.map_nil, List.nil_append] at h
    obtain ⟨s1, effs1, effs2, hstep, hrun, happ⟩ :=
      run_cons env store s _ _ s' effs h
    obtain ⟨hs, he⟩ := run_nil env store s1 s' effs2 hrun
    subst hs
    subst he
    simp only [step, Except.ok.injEq] at hstep
    obtain ⟨hc1, hc2, hc3, hc4⟩ := dragEnd_characterization s endE
    rw [hstep] at hc1 hc2 hc3 hc4
    refine ⟨?_, hc1, hc2, hc3⟩
    intro eff hm
    rw [happ, List.append_nil] at hm
    exact Or.inr (hc4 eff hm)
  | cons m ms ih =>
    intro s s' effs h
    simp only [List.map_cons, List.cons_append] at h
    obtain ⟨s1, effs1, effs2, hstep, hrun, happ⟩ :=
      run_cons env store s _ _ s' effs h
    simp only [step] at hstep
    obtain ⟨hs1, heffs1⟩ := dragMove_ok env s m s1 effs1 hstep
    rw [hs1] at hrun
    obtain ⟨htail, hty, hsr, hsp⟩ := ih s s' effs2 hrun
    refine ⟨?_, hty, hsr, hsp⟩
    intro eff hm
    rw [happ] at hm
    rcases List.mem_append.mp hm with hm1 | hm2
    · exact Or.inl (heffs1 eff hm1)
    · exact htail eff hm2

/-- A drag start over content sets the mode to Native and emits
nothing. -/
theorem dragStart_native (env : Env) (s : PageSelection)
    (e : SelectionEvent) (hb : isBlankArea e = false) :
    (onContainerDragStart env s e).1.type = PageSelectionType.native ∧
    (onContainerDragStart env s e).2 = [] := by
  simp [onContainerDragStart, hb, onNativeDragStart,
    PageSelection.resetStartRange]

/-- A drag start over a blank area sets the mode to Block and emits
exactly the native-selection clear. -/
theorem dragStart_block (env : Env) (s : PageSelection)
    (e : SelectionEvent) (hb : isBlankArea e = true) :
    (onContainerDragStart env s e).1.type = PageSelectionType.block ∧
    (onContainerDragStart env s e).2 =
      [Effect.resetNativeSeletion Option.none] := by
  simp [onContainerDragStart, hb, onBlockDragStart,
    PageSelection.resetStartRange]

/-- A single non-drag-start action keeps the mode at `none`. -/
theorem step_keeps_none (env : Env) (store : Store) (s : PageSelection)
    (a : PointerAction) (s' : PageSelection) (effs : List Effect)
    (ha : a.isDragStart = false)
    (hs : s.type = PageSelectionType.none)
    (h : step env store s a = Except.ok (s', effs)) :
    s'.type = PageSelectionType.none := by
  cases a with
  | dragStart e => simp [PointerAction.isDragStart] at ha
  | dragMove e =>
    obtain ⟨h1, _⟩ := dragMove_ok env s e s' effs h
    rw [h1]
    exact hs
  | dragEnd e =>
    simp only [step, Except.ok.injEq] at h
    obtain ⟨hc1, _, _, _⟩ := dragEnd_characterization s e
    rw [h] at hc1
    exact hc1
  | click e =>
    simp only [step, Except.ok.injEq] at h
    have h' := congrArg (fun p => p.1.type) h
    simpa [onContainerClick] using h'.symm

/-- Any run of actions containing no drag start keeps the mode at
`none`. -/
theorem run_keeps_none (env : Env) (store : Store) :
    ∀ (acts : List PointerAction) (s s' : PageSelection)
      (effs : List Effect),
      acts.all (fun a => !a.isDragStart) = true →
      s.type = PageSelectionType.none →
      run env store s acts = Except.ok (s', effs) →
      s'.type = PageSelectionType.none := by
  intro acts
  induction acts with
  | nil =>
    intro s s' effs _ hs h
    obtain ⟨h1, _⟩ := run_nil env store s s' effs h
    rw [h1]
    exact hs
  | cons a rest ih =>
    intro s s' effs hall hs h
    rw [List.all_cons, Bool.and_eq_true] at hall
    obtain ⟨s1, effs1, effs2, hstep, hrun, _⟩ :=
      run_cons env store s a rest s' effs h
    have hs1 : s1.type = PageSelectionType.none :=
      step_keeps_none env store s a s1 effs1 (by simpa using hall.1) hs hstep
    exact ih s1 s' effs2 hall.2 hs1 hrun

/-- Claim C1: before the first drag start the mode is exactly `none` (the
initial state has mode `none` with null anchors, and any run of events
containing no drag start keeps the mode at `none`); between a drag start
and its end at most one of Native/Block is active (the start sets the
mode to exactly one of the two according to the blank-area
classification, and every successful move preserves the mode); and after
every drag end the mode is `none` and both the anchor point and the
anchor range are null. -/
theorem C1_mode_lifecycle :
    (initialSelection.type = PageSelectionType.none ∧
      initialSelection.startPoint = Option.none ∧
      initialSelection.startRange = Option.none) ∧
    (∀ env store acts s' effs,
      acts.all (fun a => !a.isDragStart) = true →
      run env store initialSelection acts = Except.ok (s', effs) →
      s'.type = PageSelectionType.none) ∧
    (∀ env s e,
      (onContainerDragStart env s e).1.type =
        (if isBlankArea e then PageSelectionType.block
          else PageSelectionType.native)) ∧
    (∀ env s e s' effs,
      onContainerDragMove env s e = Except.ok (s', effs) →
      s'.type = s.type) ∧
    (∀ s e,
      (onContainerDragEnd s e).1.type = PageSelectionType.none ∧
      (onContainerDragEnd s e).1.startPoint = Option.none ∧
      (onContainerDragEnd s e).1.startRange = Option.none) := by
  refine ⟨⟨rfl, rfl, rfl⟩, ?_, ?_, ?_, ?_⟩
  · intro env store acts s' effs hall h
    exact run_keeps_none env store acts initialSelection s' effs hall rfl h
  · intro env s e
    cases hb : isBlankArea e <;>
      simp [onContainerDragStart, hb, onBlockDragStart, onNativeDragStart,
        PageSelection.resetStartRange]
  · intro env s e s' effs h
    rw [(dragMove_ok env s e s' effs h).1]
  · intro s e
    exact ⟨rfl, rfl, rfl⟩

/-- A drag-start-free action list used by the C1 witness. -/
def actsW : List PointerAction :=
  [PointerAction.dragMove evNegW, PointerAction.dragEnd evNegW]

/-- Witness for C1: running the concrete drag-start-free list `actsW`
from the initial state leaves the mode at `none`. -/
theorem C1_mode_lifecycle_witness :
    initialSelection.type = PageSelectionType.none :=
  C1_mode_lifecycle.2.1 envW storeW actsW initialSelection [] (by decide) rfl

/-- Claim C3: a drag whose start classifies as content (Native mode)
never emits on the rectangle channel during its whole start/moves/end
lifetime; a drag whose start classifies as blank (Block mode) never
passes a non-null text range to the selection-apply function during its
whole lifetime. -/
theorem C3_mode_effect_separation :
    (∀ env store s startE moves endE s' effs,
      isBlankArea startE = false →
      run env store s (dragActions startE moves endE) =
        Except.ok (s', effs) →
      ∀ r, Effect.updateSelectionRect r ∉ effs) ∧
    (∀ env store s startE moves endE s' effs,
      isBlankArea startE = true →
      run env store s (dragActions startE moves endE) =
        Except.ok (s', effs) →
      ∀ r, Effect.resetNativeSeletion (some r) ∉ effs) := by
  constructor
  · intro env store s startE moves endE s' effs hb h r hmem
    simp only [dragActions] at h
    obtain ⟨s1, effs1, effs2, hstep, hrun, happ⟩ :=
      run_cons env store s _ _ s' effs h
    simp only [step, Except.ok.injEq] at hstep
    obtain ⟨hty1, hef1⟩ := dragStart_native env s startE hb
    rw [hstep] at hty1 hef1
    have hty : s1.type = PageSelectionType.native := hty1
    have hef : effs1 = [] := hef1
    obtain ⟨htail, _, _, _⟩ :=
      run_dragTail env store endE moves s1 s' effs2 hrun
    subst hef
    rw [happ, List.nil_append] at hmem
    have hd := htail _ hmem
    rw [hty] at hd
    simp only [dragTailEffect] at hd
    rcases hd with ⟨o, heq⟩ | ⟨hcontra, _⟩
    · simp at heq
    · simp at hcontra
  · intro env store s startE moves endE s' effs hb h r hmem
    simp only [dragActions] at h
    obtain ⟨s1, effs1, effs2, hstep, hrun, happ⟩ :=
      run_cons env store s _ _ s' effs h
    simp only [step, Except.ok.injEq] at hstep
    obtain ⟨hty1, hef1⟩ := dragStart_block env s startE hb
    rw [hstep] at hty1 hef1
    have hty : s1.type = PageSelectionType.block := hty1
    have hef : effs1 = [Effect.resetNativeSeletion Option.none] := hef1
    obtain ⟨htail, _, _, _⟩ :=
      run_dragTail env store endE moves s1 s' effs2 hrun
    rw [happ, hef] at hmem
    rcases List.mem_append.mp hmem with hm1 | hm2
    · simp at hm1
    · have hd := htail _ hm2
      rw [hty] at hd
      simp only [dragTailEffect] at hd
      rcases hd with ⟨o, heq⟩ | ⟨_, heq⟩
      · simp at heq
      · simp at heq

/-- A content-area start event at (1, 2) (computed cursor `text`), whose
hit test under `envW` succeeds. -/
def evStartContentW : SelectionEvent :=
  { raw := { clientX := 1, clientY := 2, targetTag := "DIV"
             targetIsInput := false, targetCursor := "text" }
    keys := { shift := false } }

/-- Witness for C3 at a concrete Native drag (start over content at
(1, 2), one move to (50, 80), end): the emitted effect list carries no
rectangle update. -/
theorem C3_mode_effect_separation_witness :
    Effect.updateSelectionRect Option.none ∉
      [Effect.resetNativeSeletion (some rangeW2)] :=
  C3_mode_effect_separation.1 envW storeW initialSelection evStartContentW
    [evMoveW] evNegW initialSelection
    [Effect.resetNativeSeletion (some rangeW2)] rfl rfl Option.none

end MouseManager
